import Mathlib

/-!
# Cube-portfolio navigation cube: a shallow embedding

Shallow embedding of the animated-cube navigation component
(`src/components/CubeMenu.vue`) and the routing table
(`src/router/index.ts`) of the cube-portfolio homepage.

Modelling conventions:
* coordinates, times and opacities are rationals (`Rat`);
* Euler rotation angles are stored in units of a quarter turn (π/2 rad),
  so the source's `Math.PI / 2` is the rational `1` here;
* a three.js mesh is reduced to its identity (`id`) and its
  `userData.isEdge` marker flag;
* a gsap tween is recorded as (start time, duration, target property and
  destination value); gsap's `delayedCall` and `timeline.call` are recorded
  as scheduled calls carrying lists of effects (state writes, route pushes);
* `settle` runs all pending scheduled calls, i.e. lets every in-flight
  animation complete.
-/

set_option maxRecDepth 100000

namespace CubePortfolio

/-- The four sequencer states of the cube
(`type CubeState = 'idle' | 'net' | 'transitioning' | 'menu'`). -/
inductive CubeState
  | idle
  | net
  | transitioning
  | menu
deriving DecidableEq

/-- A three.js mesh, reduced to an identity token and the `userData.isEdge`
marker flag set by `createEdge`. -/
structure Mesh where
  id : Nat
  isEdge : Bool
deriving DecidableEq

/-- A 3-component vector (`THREE.Vector3`, or a `THREE.Euler` measured in
quarter turns). -/
structure Vec3 where
  x : Rat
  y : Rat
  z : Rat
deriving DecidableEq

/-- The per-face record built in `init` (interface `FaceData`): name, label,
mesh, and the three stored layout transforms. Rotations are in quarter
turns. -/
structure FaceData where
  name : String
  label : String
  mesh : Mesh
  cubePosition : Vec3
  cubeRotation : Vec3
  netPosition : Vec3
  netRotation : Vec3
  menuPosition : Vec3
  menuRotation : Vec3
deriving DecidableEq

/-- One entry of the raycaster's intersection list: the intersected mesh and
its distance along the ray. The list returned by
`raycaster.intersectObjects` is sorted by increasing distance. -/
structure Intersection where
  object : Mesh
  distance : Rat
deriving DecidableEq

/-- The destination of one gsap tween: which property is animated and the
value it is driven to. -/
inductive TweenTarget
  | facePosition (meshId : Nat) (dest : Vec3)
  | faceRotation (meshId : Nat) (dest : Vec3)
  | groupRotationXY (x y : Rat)
  | groupPositionY (y : Rat)
  | groupPosition (dest : Vec3)
  | groupScale (dest : Vec3)
  | edgeOpacity (idx : Nat) (value : Rat)
deriving DecidableEq

/-- A gsap tween: start offset on the current timeline, duration, and
animated target. -/
structure Tween where
  startAt : Rat
  duration : Rat
  target : TweenTarget
deriving DecidableEq

/-- An effect performed inside a gsap callback: a write to `currentState`
or a `router.push`. -/
inductive Effect
  | setState (s : CubeState)
  | push (path : String)
deriving DecidableEq

/-- A scheduled gsap callback (`gsap.delayedCall` / `timeline.call`): the
time it fires and the effects it performs, in order. -/
structure ScheduledCall where
  time : Rat
  effects : List Effect
deriving DecidableEq

/-- The component's mutable state: the sequencer state, the face table, the
rendered group transform components touched by the idle oscillation, the
log of started tweens, the pending scheduled calls, and the route pushes
already issued. -/
structure Component where
  currentState : CubeState
  faces : List FaceData
  groupPosY : Rat
  groupScale : Rat
  tweens : List Tween
  calls : List ScheduledCall
  pushes : List String
deriving DecidableEq

/-! ## The face table built by `init` -/

/-- `front` face: cube position (0,0,½), net (-½,0,0), menu (0,1.5,0). -/
def frontFace : FaceData :=
  ⟨"front", "Web", ⟨0, false⟩,
   ⟨0, 0, mkRat 1 2⟩, ⟨0, 0, 0⟩,
   ⟨mkRat (-1) 2, 0, 0⟩, ⟨0, 0, 0⟩,
   ⟨0, mkRat 3 2, 0⟩, ⟨0, 0, 0⟩⟩

/-- `right` face: cube position (½,0,0) rotated π/2 about y. -/
def rightFace : FaceData :=
  ⟨"right", "3D", ⟨1, false⟩,
   ⟨mkRat 1 2, 0, 0⟩, ⟨0, 1, 0⟩,
   ⟨mkRat 1 2, 0, 0⟩, ⟨0, 0, 0⟩,
   ⟨0, mkRat (-1) 2, 0⟩, ⟨0, 0, 0⟩⟩

/-- `left` face: cube position (-½,0,0) rotated -π/2 about y. -/
def leftFace : FaceData :=
  ⟨"left", "Fullstack", ⟨2, false⟩,
   ⟨mkRat (-1) 2, 0, 0⟩, ⟨0, -1, 0⟩,
   ⟨mkRat (-3) 2, 0, 0⟩, ⟨0, 0, 0⟩,
   ⟨0, mkRat 1 2, 0⟩, ⟨0, 0, 0⟩⟩

/-- `top` face: cube position (0,½,0) rotated -π/2 about x. -/
def topFace : FaceData :=
  ⟨"top", "About", ⟨3, false⟩,
   ⟨0, mkRat 1 2, 0⟩, ⟨-1, 0, 0⟩,
   ⟨mkRat (-1) 2, 1, 0⟩, ⟨0, 0, 0⟩,
   ⟨0, mkRat 5 2, 0⟩, ⟨0, 0, 0⟩⟩

/-- `bottom` face: cube position (0,-½,0) rotated π/2 about x. -/
def bottomFace : FaceData :=
  ⟨"bottom", "Projects", ⟨4, false⟩,
   ⟨0, mkRat (-1) 2, 0⟩, ⟨1, 0, 0⟩,
   ⟨mkRat (-1) 2, -1, 0⟩, ⟨0, 0, 0⟩,
   ⟨0, mkRat (-3) 2, 0⟩, ⟨0, 0, 0⟩⟩

/-- `back` face: cube position (0,0,-½) rotated π about y. -/
def backFace : FaceData :=
  ⟨"back", "Contact", ⟨5, false⟩,
   ⟨0, 0, mkRat (-1) 2⟩, ⟨0, 2, 0⟩,
   ⟨mkRat 3 2, 0, 0⟩, ⟨0, 0, 0⟩,
   ⟨0, mkRat (-5) 2, 0⟩, ⟨0, 0, 0⟩⟩

/-- The `faces` array as populated by `init`, in push order. -/
def initFaces : List FaceData :=
  [frontFace, rightFace, leftFace, topFace, bottomFace, backFace]

/-- The twelve edge-decoration meshes created in `init` (ids 6..17, all
carrying the `isEdge` marker). -/
def edgeMeshes : List Mesh :=
  (List.range 12).map (fun i => ⟨6 + i, true⟩)

/-- The component right after `init`: state `idle`, the six-face table, the
group at rest, no tweens, no pending calls, no pushes. -/
def initComponent : Component :=
  ⟨CubeState.idle, initFaces, 0, 1, [], [], []⟩

/-! ## Tween construction -/

/-- `setEdgeOpacity(value, duration)`: one opacity tween per edge mesh,
started at the given timeline offset. -/
def setEdgeOpacityTweens (startAt value duration : Rat) : List Tween :=
  (List.range 12).map (fun i => ⟨startAt, duration, TweenTarget.edgeOpacity i value⟩)

/-- The tweens started by `unfoldCubeNet`: group rotation back to 0 (1 s),
group y position and scale back to rest (0.5 s), every face from its cube
transform to its net transform (1 s), and the edge fade to transparent
(1 s). -/
def unfoldTweens (faces : List FaceData) : List Tween :=
  [⟨0, 1, TweenTarget.groupRotationXY 0 0⟩,
   ⟨0, mkRat 1 2, TweenTarget.groupPositionY 0⟩,
   ⟨0, mkRat 1 2, TweenTarget.groupScale ⟨1, 1, 1⟩⟩]
  ++ faces.flatMap (fun fd =>
      [⟨0, 1, TweenTarget.facePosition fd.mesh.id fd.netPosition⟩,
       ⟨0, 1, TweenTarget.faceRotation fd.mesh.id fd.netRotation⟩])
  ++ setEdgeOpacityTweens 0 0 1

/-- The tweens placed on the `transitionToMenuAndNavigate` timeline:
at 0 the edges snap opaque (`setEdgeOpacity(1, 0)`) and every face folds
back to its cube transform (0.5 s); at 0.6 the group shrinks to half scale
and moves to the menu anchor (-2.5, 1.5, 0); at 1.2 every face unfolds to
its menu transform (0.5 s) and the edges fade to 0 (`setEdgeOpacity(0, 0.5)`). -/
def menuTweens (faces : List FaceData) : List Tween :=
  setEdgeOpacityTweens 0 1 0
  ++ faces.flatMap (fun fd =>
      [⟨0, mkRat 1 2, TweenTarget.facePosition fd.mesh.id fd.cubePosition⟩,
       ⟨0, mkRat 1 2, TweenTarget.faceRotation fd.mesh.id fd.cubeRotation⟩])
  ++ [⟨mkRat 6 10, mkRat 1 2, TweenTarget.groupScale ⟨mkRat 1 2, mkRat 1 2, mkRat 1 2⟩⟩,
      ⟨mkRat 6 10, mkRat 1 2, TweenTarget.groupPosition ⟨mkRat (-5) 2, mkRat 3 2, 0⟩⟩]
  ++ faces.flatMap (fun fd =>
      [⟨mkRat 12 10, mkRat 1 2, TweenTarget.facePosition fd.mesh.id fd.menuPosition⟩,
       ⟨mkRat 12 10, mkRat 1 2, TweenTarget.faceRotation fd.mesh.id fd.menuRotation⟩])
  ++ setEdgeOpacityTweens (mkRat 12 10) 0 (mkRat 1 2)

/-- The moment a tween finishes. -/
def tweenEnd (t : Tween) : Rat := t.startAt + t.duration

/-- The end of a timeline: the latest tween finish time (gsap appends an
unpositioned `timeline.call` exactly there). -/
def timelineEnd (ts : List Tween) : Rat :=
  (ts.map tweenEnd).foldr max 0

/-- The timeline offset at which the menu transition's final callback
(state write + `router.push`) fires: the end of the menu timeline. -/
def menuCallTime (faces : List FaceData) : Rat :=
  timelineEnd (menuTweens faces)

/-! ## Navigation mapping -/

/-- The `switch (selectedFace.name)` of `transitionToMenuAndNavigate`:
face name to route path, defaulting to `/`. -/
def routePathFor (name : String) : String :=
  if name = "front" then "/web"
  else if name = "right" then "/3d"
  else if name = "left" then "/fullstack"
  else if name = "top" then "/about"
  else if name = "bottom" then "/projects"
  else if name = "back" then "/contact"
  else "/"

/-- The seven registered route paths of `src/router/index.ts`. -/
def routerPaths : List String :=
  ["/", "/web", "/3d", "/fullstack", "/about", "/projects", "/contact"]

/-! ## The sequencer operations -/

/-- `unfoldCubeNet`: set state to `transitioning`, start the unfold tweens,
and schedule `currentState = 'net'` one second later
(`gsap.delayedCall(1, ...)`). -/
def unfoldCubeNet (c : Component) : Component :=
  { c with
    currentState := CubeState.transitioning
    tweens := c.tweens ++ unfoldTweens c.faces
    calls := c.calls ++ [⟨1, [Effect.setState CubeState.net]⟩] }

/-- `transitionToMenuAndNavigate(selectedFace)`: bail out unless the state
is `net` or `menu`; otherwise set state to `transitioning`, start the menu
timeline, and append a final callback (placed at the timeline's end) that
sets state `menu` and pushes the selected face's route. -/
def transitionToMenuAndNavigate (selectedFace : FaceData) (c : Component) : Component :=
  if c.currentState ≠ CubeState.net ∧ c.currentState ≠ CubeState.menu then c
  else
    { c with
      currentState := CubeState.transitioning
      tweens := c.tweens ++ menuTweens c.faces
      calls := c.calls ++
        [⟨menuCallTime c.faces,
          [Effect.setState CubeState.menu,
           Effect.push (routePathFor selectedFace.name)]⟩] }

/-- `onCanvasClick`, given the raycaster's distance-sorted intersection
list: no intersections is a no-op; a nearest intersection carrying the
`isEdge` marker is a no-op; otherwise dispatch on the current state
(`idle` unfolds the net; `net`/`menu` look the mesh up in the face table
and start the menu transition; `transitioning` falls through). -/
def onCanvasClick (its : List Intersection) (c : Component) : Component :=
  match its with
  | [] => c
  | clicked :: _ =>
    if clicked.object.isEdge then c
    else
      match c.currentState with
      | CubeState.idle => unfoldCubeNet c
      | CubeState.net | CubeState.menu =>
        match c.faces.find? (fun fd => fd.mesh == clicked.object) with
        | some fd => transitionToMenuAndNavigate fd c
        | none => c
      | CubeState.transitioning => c

/-- The hit-selection part of `onCanvasClick` in isolation: the mesh acted
on, if any (`intersects[0]`, discarded when it carries the edge marker). -/
def hitTest (its : List Intersection) : Option Mesh :=
  match its with
  | [] => none
  | clicked :: _ =>
    if clicked.object.isEdge then none else some clicked.object

/-- Modelled from the spec's words (§4.3): "returns the nearest intersected
face mesh (ignoring decoration meshes)" — i.e. skip decoration entries and
take the nearest remaining face. Stated for comparison with `hitTest`. -/
def hitTestSpec (its : List Intersection) : Option Mesh :=
  (its.find? (fun i => !i.object.isEdge)).map (fun i => i.object)

/-! ## Pointer events -/

/-- The client coordinates of a mouse event (or of one touch point). -/
structure MouseEvt where
  clientX : Rat
  clientY : Rat
deriving DecidableEq

/-- The canvas bounding rectangle (`getBoundingClientRect`). -/
structure Rect where
  left : Rat
  top : Rat
  width : Rat
  height : Rat
deriving DecidableEq

/-- A touch event: its list of active touch points. -/
structure TouchEvt where
  touches : List MouseEvt
deriving DecidableEq

/-- The normalized-device-coordinate conversion at the top of
`onCanvasClick`. -/
def mouseNdc (event : MouseEvt) (rect : Rect) : Rat × Rat :=
  ((event.clientX - rect.left) / rect.width * 2 - 1,
   -((event.clientY - rect.top) / rect.height) * 2 + 1)

/-- The full click pipeline: convert to NDC, raycast (the raycaster is a
parameter standing for `raycaster.setFromCamera` + `intersectObjects`),
then run the click handler. -/
def onCanvasClickEvent (raycast : Rat × Rat → List Intersection)
    (event : MouseEvt) (rect : Rect) (c : Component) : Component :=
  onCanvasClick (raycast (mouseNdc event rect)) c

/-- `onCanvasTouch`: read the first touch point, build a synthetic click
event from its client coordinates, and delegate to the click handler.
`none` models the failure of `event.touches[0]` on an empty touch list. -/
def onCanvasTouch (raycast : Rat × Rat → List Intersection)
    (event : TouchEvt) (rect : Rect) (c : Component) : Option Component :=
  match event.touches with
  | [] => none
  | touch :: _ =>
    some (onCanvasClickEvent raycast ⟨touch.clientX, touch.clientY⟩ rect c)

/-! ## Animation completion and the render loop -/

/-- Perform one callback effect: a `currentState` write or a
`router.push`. -/
def applyEffect (c : Component) (e : Effect) : Component :=
  match e with
  | Effect.setState s => { c with currentState := s }
  | Effect.push p => { c with pushes := c.pushes ++ [p] }

/-- Run one scheduled callback: perform its effects in order. -/
def runCall (c : Component) (sc : ScheduledCall) : Component :=
  sc.effects.foldl applyEffect c

/-- Let every pending scheduled callback fire (all in-flight animations
complete): run the calls in order and clear the queue. -/
def settle (c : Component) : Component :=
  { c.calls.foldl runCall c with calls := [] }

/-- One frame of the render loop (`animate`): while idle, drive the group's
vertical bob and scale pulse from wall-clock time (`sinF` stands for
`Math.sin`, `now` for `Date.now()` in milliseconds); in any other state the
frame only renders. -/
def animate (sinF : Rat → Rat) (now : Rat) (c : Component) : Component :=
  if c.currentState = CubeState.idle then
    { c with
      groupPosY := sinF (now * mkRat 2 1000 * mkRat 8 10) * mkRat 1 10
      groupScale := 1 + sinF (now * mkRat 2 1000 * mkRat 5 10) * mkRat 3 100 }
  else c

/-! ## Derived observations used by the statements below -/

/-- The (value, duration) pairs of the edge-opacity animations launched in
phase (c) of the menu timeline (timeline offset 1.2). -/
def phaseCEdgeAnims : List (Rat × Rat) :=
  (menuTweens initFaces).filterMap (fun t =>
    if t.startAt = mkRat 12 10 then
      match t.target with
      | TweenTarget.edgeOpacity _ v => some (v, t.duration)
      | _ => none
    else none)

/-- The component resting in the `net` state with no animation in flight. -/
def netComponent : Component :=
  { initComponent with currentState := CubeState.net }

/-- The component frozen mid-transition. -/
def transitioningComponent : Component :=
  { initComponent with currentState := CubeState.transitioning }

/-- A raycaster result in which an edge decoration (distance 1) lies nearer
on the ray than the front face (distance 2). -/
def demoHits : List Intersection :=
  [⟨⟨6, true⟩, 1⟩, ⟨⟨0, false⟩, 2⟩]

/-! ## Helper lemmas -/

lemma applyEffect_faces (c : Component) (e : Effect) :
    (applyEffect c e).faces = c.faces := by
  cases e <;> rfl

lemma foldl_applyEffect_faces (es : List Effect) (c : Component) :
    (es.foldl applyEffect c).faces = c.faces := by
  induction es generalizing c with
  | nil => rfl
  | cons e es ih => rw [List.foldl_cons, ih, applyEffect_faces]

lemma runCall_faces (c : Component) (sc : ScheduledCall) :
    (runCall c sc).faces = c.faces :=
  foldl_applyEffect_faces sc.effects c

lemma foldl_runCall_faces (l : List ScheduledCall) (c : Component) :
    (l.foldl runCall c).faces = c.faces := by
  induction l generalizing c with
  | nil => rfl
  | cons sc l ih => rw [List.foldl_cons, ih, runCall_faces]

lemma settle_faces (c : Component) : (settle c).faces = c.faces :=
  foldl_runCall_faces c.calls c

lemma transition_faces (fd : FaceData) (c : Component) :
    (transitionToMenuAndNavigate fd c).faces = c.faces := by
  unfold transitionToMenuAndNavigate
  split <;> rfl

lemma animate_faces (sinF : Rat → Rat) (now : Rat) (c : Component) :
    (animate sinF now c).faces = c.faces := by
  unfold animate
  split <;> rfl

lemma onCanvasClick_faces (its : List Intersection) (c : Component) :
    (onCanvasClick its c).faces = c.faces := by
  cases its with
  | nil => rfl
  | cons i rest =>
    by_cases he : i.object.isEdge
    · simp [onCanvasClick, he]
    · cases hs : c.currentState with
      | idle => simp [onCanvasClick, he, hs, unfoldCubeNet]
      | transitioning => simp [onCanvasClick, he, hs]
      | net =>
        cases hf : c.faces.find? (fun fd => fd.mesh == i.object) with
        | none => simp [onCanvasClick, he, hs, hf]
        | some fd => simp [onCanvasClick, he, hs, hf, transition_faces]
      | menu =>
        cases hf : c.faces.find? (fun fd => fd.mesh == i.object) with
        | none => simp [onCanvasClick, he, hs, hf]
        | some fd => simp [onCanvasClick, he, hs, hf, transition_faces]

lemma onCanvasClick_menu_eq (c : Component) (fd : FaceData) (d : Rat)
    (rest : List Intersection)
    (hstate : c.currentState = CubeState.net ∨ c.currentState = CubeState.menu)
    (hedge : fd.mesh.isEdge = false)
    (hfind : c.faces.find? (fun x => x.mesh == fd.mesh) = some fd) :
    onCanvasClick (⟨fd.mesh, d⟩ :: rest) c = transitionToMenuAndNavigate fd c := by
  rcases hstate with h | h <;> simp [onCanvasClick, hedge, hfind, h]

lemma transitionToMenu_eq (fd : FaceData) (c : Component)
    (hstate : c.currentState = CubeState.net ∨ c.currentState = CubeState.menu) :
    transitionToMenuAndNavigate fd c =
      { c with
        currentState := CubeState.transitioning
        tweens := c.tweens ++ menuTweens c.faces
        calls := c.calls ++
          [⟨menuCallTime c.faces,
            [Effect.setState CubeState.menu,
             Effect.push (routePathFor fd.name)]⟩] } := by
  rcases hstate with h | h <;> simp [transitionToMenuAndNavigate, h]

lemma settle_state_push (c : Component) (t : Rat) (s : CubeState) (p : String)
    (h : c.calls = [⟨t, [Effect.setState s, Effect.push p]⟩]) :
    settle c = { c with currentState := s, pushes := c.pushes ++ [p], calls := [] } := by
  unfold settle
  rw [h]
  rfl

lemma settle_state_only (c : Component) (t : Rat) (s : CubeState)
    (h : c.calls = [⟨t, [Effect.setState s]⟩]) :
    settle c = { c with currentState := s, calls := [] } := by
  unfold settle
  rw [h]
  rfl

lemma menuCallTime_eq : menuCallTime initFaces = mkRat 17 10 := by
  norm_num [menuCallTime, timelineEnd, menuTweens, setEdgeOpacityTweens, tweenEnd,
    initFaces, frontFace, rightFace, leftFace, topFace, bottomFace, backFace,
    List.range, List.range.loop, Rat.mkRat_eq_div, max_def]

lemma unfoldEnd_eq : timelineEnd (unfoldTweens initFaces) = 1 := by
  norm_num [timelineEnd, unfoldTweens, setEdgeOpacityTweens, tweenEnd,
    initFaces, frontFace, rightFace, leftFace, topFace, bottomFace, backFace,
    List.range, List.range.loop, Rat.mkRat_eq_div, max_def]

lemma menu_push_comes_last :
    ∀ t ∈ menuTweens initFaces, tweenEnd t ≤ menuCallTime initFaces := by
  intro t ht
  rw [menuCallTime_eq]
  fin_cases ht <;> norm_num [tweenEnd, Rat.mkRat_eq_div]

/-! ## The claims -/

/-- C1: a pointer hit on any of the six faces while the state is `net` or
`menu` ends (once the timeline completes) with state `menu` and exactly one
route push, whose path is the static table entry for the face
(front → /web, right → /3d, left → /fullstack, top → /about,
bottom → /projects, back → /contact); the push is scheduled exactly at the
menu timeline's end, no earlier than any tween of the transition, and has
not yet been issued when the handler returns. -/
theorem menu_click_navigates
    (c : Component) (fd : FaceData) (d : Rat) (rest : List Intersection)
    (hface : fd ∈ initFaces)
    (hstate : c.currentState = CubeState.net ∨ c.currentState = CubeState.menu)
    (hfaces : c.faces = initFaces) (hcalls : c.calls = []) :
    (settle (onCanvasClick (⟨fd.mesh, d⟩ :: rest) c)).currentState = CubeState.menu
    ∧ (settle (onCanvasClick (⟨fd.mesh, d⟩ :: rest) c)).pushes
        = c.pushes ++ [routePathFor fd.name]
    ∧ routePathFor fd.name =
        (if fd.name = "front" then "/web"
         else if fd.name = "right" then "/3d"
         else if fd.name = "left" then "/fullstack"
         else if fd.name = "top" then "/about"
         else if fd.name = "bottom" then "/projects"
         else "/contact")
    ∧ (onCanvasClick (⟨fd.mesh, d⟩ :: rest) c).pushes = c.pushes
    ∧ (onCanvasClick (⟨fd.mesh, d⟩ :: rest) c).calls
        = [⟨menuCallTime initFaces,
            [Effect.setState CubeState.menu, Effect.push (routePathFor fd.name)]⟩]
    ∧ (∀ t ∈ menuTweens initFaces, tweenEnd t ≤ menuCallTime initFaces) := by
  simp only [initFaces, List.mem_cons, List.not_mem_nil, or_false] at hface
  have hedge : fd.mesh.isEdge = false := by
    rcases hface with rfl | rfl | rfl | rfl | rfl | rfl <;> rfl
  have hfind : c.faces.find? (fun x => x.mesh == fd.mesh) = some fd := by
    rw [hfaces]
    rcases hface with rfl | rfl | rfl | rfl | rfl | rfl <;> decide
  rw [onCanvasClick_menu_eq c fd d rest hstate hedge hfind,
    transitionToMenu_eq fd c hstate]
  have hc2 : ({ c with
      currentState := CubeState.transitioning
      tweens := c.tweens ++ menuTweens c.faces
      calls := c.calls ++
        [⟨menuCallTime c.faces,
          [Effect.setState CubeState.menu,
           Effect.push (routePathFor fd.name)]⟩] } : Component).calls
      = [⟨menuCallTime initFaces,
          [Effect.setState CubeState.menu, Effect.push (routePathFor fd.name)]⟩] := by
    rw [hfaces]
    rw [show c.calls ++
        [(⟨menuCallTime initFaces,
          [Effect.setState CubeState.menu,
           Effect.push (routePathFor fd.name)]⟩ : ScheduledCall)]
      = [⟨menuCallTime initFaces,
          [Effect.setState CubeState.menu, Effect.push (routePathFor fd.name)]⟩] from
      by rw [hcalls]; rfl]
  rw [settle_state_push _ (menuCallTime initFaces) CubeState.menu
    (routePathFor fd.name) hc2]
  refine ⟨rfl, rfl, ?_, rfl, hc2, menu_push_comes_last⟩
  rcases hface with rfl | rfl | rfl | rfl | rfl | rfl <;> rfl

/-- C1 witness: from `net`, clicking the front face ends in `menu` with the
single push `/web`. -/
theorem menu_click_navigates_witness :
    (settle (onCanvasClick [⟨frontFace.mesh, 1⟩] netComponent)).currentState
      = CubeState.menu
    ∧ (settle (onCanvasClick [⟨frontFace.mesh, 1⟩] netComponent)).pushes = ["/web"] := by
  have h := menu_click_navigates netComponent frontFace 1 [] (by decide)
    (Or.inl rfl) rfl rfl
  exact ⟨h.1, by rw [h.2.1]; rfl⟩

/-- C2: any pointer hit arriving while the state is `transitioning` leaves
the component entirely unchanged — same state, no new tweens, no new
scheduled calls, no pushes; the inner guard of the menu transition likewise
refuses to start while transitioning. -/
theorem transitioning_click_ignored
    (its : List Intersection) (c : Component)
    (h : c.currentState = CubeState.transitioning) :
    onCanvasClick its c = c ∧ ∀ fd, transitionToMenuAndNavigate fd c = c := by
  constructor
  · cases its with
    | nil => rfl
    | cons i rest =>
      by_cases he : i.object.isEdge <;> simp [onCanvasClick, he, h]
  · intro fd
    simp [transitionToMenuAndNavigate, h]

/-- C2 witness: a face hit on a mid-transition component is dropped. -/
theorem transitioning_click_ignored_witness :
    onCanvasClick [⟨⟨0, false⟩, 1⟩] transitioningComponent = transitioningComponent
    ∧ transitionToMenuAndNavigate frontFace transitioningComponent
        = transitioningComponent :=
  ⟨(transitioning_click_ignored [⟨⟨0, false⟩, 1⟩] transitioningComponent rfl).1,
   (transitioning_click_ignored [] transitioningComponent rfl).2 frontFace⟩

/-- C3: from `idle`, a hit on any face mesh (whichever of the six it is)
moves the state to `transitioning`; the only completion scheduled is
`currentState = net` at delay 1, which equals the unfold animation's
duration; letting the animation complete yields state `net`; no route push
is issued at any point. -/
theorem idle_click_unfolds_to_net
    (c : Component) (i : Intersection) (rest : List Intersection)
    (hstate : c.currentState = CubeState.idle) (hedge : i.object.isEdge = false)
    (hcalls : c.calls = []) :
    (onCanvasClick (i :: rest) c).currentState = CubeState.transitioning
    ∧ (onCanvasClick (i :: rest) c).calls = [⟨1, [Effect.setState CubeState.net]⟩]
    ∧ (settle (onCanvasClick (i :: rest) c)).currentState = CubeState.net
    ∧ (settle (onCanvasClick (i :: rest) c)).pushes = c.pushes
    ∧ timelineEnd (unfoldTweens initFaces) = 1 := by
  have h1 : onCanvasClick (i :: rest) c = unfoldCubeNet c := by
    simp [onCanvasClick, hedge, hstate]
  have h2 : (unfoldCubeNet c).calls = [⟨1, [Effect.setState CubeState.net]⟩] := by
    simp [unfoldCubeNet, hcalls]
  rw [h1]
  rw [settle_state_only (unfoldCubeNet c) 1 CubeState.net h2]
  exact ⟨rfl, h2, rfl, rfl, unfoldEnd_eq⟩

/-- C3 witness: clicking the front face of the freshly initialized
component transitions and then settles in `net` with no pushes. -/
theorem idle_click_unfolds_to_net_witness :
    (settle (onCanvasClick [⟨⟨0, false⟩, 1⟩] initComponent)).currentState
      = CubeState.net
    ∧ (settle (onCanvasClick [⟨⟨0, false⟩, 1⟩] initComponent)).pushes = [] := by
  have h := idle_click_unfolds_to_net initComponent ⟨⟨0, false⟩, 1⟩ [] rfl rfl rfl
  exact ⟨h.2.2.1, h.2.2.2.1⟩

/-- C4 counterexample: the twelve phase-(c) edge-opacity animations drive
the opacity to 0, not to the half-opacity 0.5 the claim states. -/
theorem phaseC_edge_opacity_not_half :
    phaseCEdgeAnims.map Prod.fst = List.replicate 12 0
    ∧ phaseCEdgeAnims.map Prod.fst ≠ List.replicate 12 (mkRat 1 2) := by
  decide

/-- C4 (amended): during phase (c) of the menu transition the opacity of
every one of the twelve edge decorations is animated to full transparency
(opacity 0), over a 0.5 s duration. -/
theorem phaseC_edge_fade_to_zero :
    phaseCEdgeAnims = List.replicate 12 (0, mkRat 1 2) := by
  decide

/-- C5 counterexample: with a decoration mesh nearer on the ray (distance
1) than the front face (distance 2), the handler selects nothing and is a
no-op — the nearer decoration does prevent the face's selection — whereas
the skip-the-decorations reading (`hitTestSpec`) would have selected the
face. -/
theorem nearer_edge_blocks_face :
    hitTest demoHits = none
    ∧ hitTestSpec demoHits = some ⟨0, false⟩
    ∧ onCanvasClick demoHits netComponent = netComponent := by
  decide

/-- C5 (amended): the hit test converts viewport coordinates to normalized
device coordinates by the stated formula, casts a ray, and examines only
the nearest intersection: that mesh is selected when it is a face mesh,
while an empty intersection list, or a nearest mesh carrying the
decoration marker, selects nothing and leaves the handler a no-op — a
decoration nearer on the ray than a face does block that face. -/
theorem hit_test_nearest_only :
    (∀ event rect, mouseNdc event rect
        = ((event.clientX - rect.left) / rect.width * 2 - 1,
           -((event.clientY - rect.top) / rect.height) * 2 + 1))
    ∧ hitTest [] = none
    ∧ (∀ i rest, i.object.isEdge = true →
        hitTest ((i :: rest : List Intersection)) = none)
    ∧ (∀ i rest, i.object.isEdge = false →
        hitTest ((i :: rest : List Intersection)) = some i.object)
    ∧ (∀ its c, hitTest its = none → onCanvasClick its c = c) := by
  refine ⟨fun event rect => rfl, rfl,
    fun i rest h => by simp [hitTest, h],
    fun i rest h => by simp [hitTest, h],
    fun its c h => ?_⟩
  cases its with
  | nil => rfl
  | cons i rest =>
    by_cases he : i.object.isEdge
    · simp [onCanvasClick, he]
    · simp [hitTest, he] at h

/-- C5 witness: the edge at distance 1 is not selected, the front face at
distance 2 is when nearest, and a miss leaves the component untouched. -/
theorem hit_test_nearest_only_witness :
    hitTest [⟨⟨6, true⟩, 1⟩] = none
    ∧ hitTest [⟨⟨0, false⟩, 2⟩] = some ⟨0, false⟩
    ∧ onCanvasClick [] initComponent = initComponent :=
  ⟨hit_test_nearest_only.2.2.1 ⟨⟨6, true⟩, 1⟩ [] rfl,
   hit_test_nearest_only.2.2.2.1 ⟨⟨0, false⟩, 2⟩ [] rfl,
   hit_test_nearest_only.2.2.2.2 [] initComponent rfl⟩

/-- C6: the pointer-input edge cases — no intersection at all, or a nearest
intersection carrying the decoration marker — are silent no-ops in every
state: the whole component (state, tweens, scheduled calls, pushes) is
returned unchanged, and the total handler raises nothing. -/
theorem pointer_edge_cases_noop
    (c : Component) (its : List Intersection)
    (h : its = [] ∨ ∃ i rest, its = i :: rest ∧ i.object.isEdge = true) :
    onCanvasClick its c = c := by
  rcases h with rfl | ⟨i, rest, rfl, he⟩
  · rfl
  · simp [onCanvasClick, he]

/-- C6 witness: a miss and an edge hit both leave the fresh component
untouched. -/
theorem pointer_edge_cases_noop_witness :
    onCanvasClick [] initComponent = initComponent
    ∧ onCanvasClick [⟨⟨7, true⟩, 1⟩] initComponent = initComponent :=
  ⟨pointer_edge_cases_noop initComponent [] (Or.inl rfl),
   pointer_edge_cases_noop initComponent [⟨⟨7, true⟩, 1⟩]
     (Or.inr ⟨⟨⟨7, true⟩, 1⟩, [], rfl, rfl⟩)⟩

/-- C7: the face table is fixed at initialization and no sequencer
operation — the unfold transition, the menu transition, the click handler,
the render loop, or animation completion — ever writes to it, so repeated
lookups always return the same previously-defined layout values. -/
theorem layout_table_immutable :
    initComponent.faces = initFaces
    ∧ (∀ c, (unfoldCubeNet c).faces = c.faces)
    ∧ (∀ fd c, (transitionToMenuAndNavigate fd c).faces = c.faces)
    ∧ (∀ its c, (onCanvasClick its c).faces = c.faces)
    ∧ (∀ sinF now c, (animate sinF now c).faces = c.faces)
    ∧ (∀ c, (settle c).faces = c.faces) :=
  ⟨rfl, fun _ => rfl, transition_faces, onCanvasClick_faces,
   animate_faces, settle_faces⟩

/-- C8: `idle` is the initial state, and `transitioning` is never a resting
point: the unfold operation that sets it schedules `net` at delay 1 on the
same timeline, and the menu operation that sets it schedules `menu` (with
the route push) at the menu timeline's end. -/
theorem transitioning_never_rests :
    initComponent.currentState = CubeState.idle
    ∧ (∀ c, (unfoldCubeNet c).currentState = CubeState.transitioning
        ∧ (unfoldCubeNet c).calls
            = c.calls ++ [⟨1, [Effect.setState CubeState.net]⟩])
    ∧ (∀ fd c, c.currentState = CubeState.net ∨ c.currentState = CubeState.menu →
        (transitionToMenuAndNavigate fd c).currentState = CubeState.transitioning
        ∧ (transitionToMenuAndNavigate fd c).calls
            = c.calls ++ [⟨menuCallTime c.faces,
                [Effect.setState CubeState.menu,
                 Effect.push (routePathFor fd.name)]⟩]) := by
  refine ⟨rfl, fun c => ⟨rfl, rfl⟩, fun fd c h => ?_⟩
  rw [transitionToMenu_eq fd c h]
  exact ⟨rfl, rfl⟩

/-- C8 witness: from `net`, starting the menu transition for the front face
leaves the state `transitioning` with the completion callback scheduled. -/
theorem transitioning_never_rests_witness :
    (transitionToMenuAndNavigate frontFace netComponent).currentState
      = CubeState.transitioning
    ∧ (transitionToMenuAndNavigate frontFace netComponent).calls
        = netComponent.calls ++ [⟨menuCallTime netComponent.faces,
            [Effect.setState CubeState.menu,
             Effect.push (routePathFor frontFace.name)]⟩] :=
  transitioning_never_rests.2.2 frontFace netComponent (Or.inl rfl)

/-- C9: every path the navigation switch can produce is one of the seven
paths registered in the router, and any name outside the six known faces
falls to the default branch pushing `/`. -/
theorem route_paths_registered (name : String) :
    routePathFor name ∈ routerPaths
    ∧ (name ∉ ["front", "right", "left", "top", "bottom", "back"] →
        routePathFor name = "/") := by
  unfold routePathFor routerPaths
  split_ifs with h1 h2 h3 h4 h5 h6 <;> refine ⟨by simp, fun hn => ?_⟩ <;> simp_all

/-- C9 witness: an unknown face name maps to `/`, which is registered. -/
theorem route_paths_registered_witness :
    routePathFor "plan9" = "/" ∧ routePathFor "plan9" ∈ routerPaths :=
  ⟨(route_paths_registered "plan9").2 (by decide),
   (route_paths_registered "plan9").1⟩

/-- C10: a touch is handled exactly like a click: the touch handler builds
a synthetic click event from the first touch point's client coordinates
and delegates to the click handler, so equal coordinates and equal state
yield the identical resulting component (state transition and
navigation). -/
theorem touch_delegates_to_click
    (raycast : Rat × Rat → List Intersection) (touch : MouseEvt)
    (rest : List MouseEvt) (rect : Rect) (c : Component) :
    onCanvasTouch raycast ⟨touch :: rest⟩ rect c
      = some (onCanvasClickEvent raycast touch rect c) :=
  rfl

end CubePortfolio
